import Mathlib

/-!
Verification of the INE validation orchestration engine
(`src/ine-validator.js`, plus the near-duplicate legacy copy
`src/unnamed/part_000`).

The JavaScript pipeline is shallowly embedded as follows.

* A `CheckOutcome` pushed onto a stage's `elements` array is modelled by
  `CheckElement` keeping the `name` and `passed` fields.  The purely
  presentational `value` / `expected` strings of the source are elided:
  no claim mentions them.  The legacy copy additionally records a
  `confidence` number (a fresh `Math.random()` draw), modelled by
  `CheckElementC`.
* Detector capabilities are external collaborators ("`detect(evidence) ->
  CheckOutcome`, asynchronous, may fail").  Each detector invocation that
  a stage `await`s is therefore a parameter of the stage function, of
  type `Except String α`: `.ok` is a normal return, `.error` a raised
  fault, exactly the two ways a JS `await` can resolve.
* JS numbers on the paths the claims exercise are exact rationals, so
  arithmetic is over `ℚ`; `Math.round` becomes `jsRound`.  One JS
  corner is noted where it arises: a `ℚ` division by zero yields `0` in
  Lean where JS would yield `Infinity`/`NaN`; at the single place the
  source can divide by zero (the aspect-ratio check) both semantics make
  the enclosing range check fail, which is proved irrelevant there, and
  the score aggregator's per-stage division is guarded by the source's
  own `elements.length > 0` test.
-/

namespace INE

/-- Decidable equality for `Except`, used to evaluate concrete detector
environments inside `decide`. -/
instance {ε α : Type} [DecidableEq ε] [DecidableEq α] : DecidableEq (Except ε α) := fun a b =>
  match a, b with
  | .error e1, .error e2 =>
      if h : e1 = e2 then .isTrue (by rw [h]) else .isFalse (by intro hc; cases hc; exact h rfl)
  | .ok v1, .ok v2 =>
      if h : v1 = v2 then .isTrue (by rw [h]) else .isFalse (by intro hc; cases hc; exact h rfl)
  | .error _, .ok _ => .isFalse (by intro hc; cases hc)
  | .ok _, .error _ => .isFalse (by intro hc; cases hc)

/-- One collected check outcome (source: the objects pushed onto
`results.elements`), keeping the fields the claims are about. -/
structure CheckElement where
  name : String
  passed : Bool
deriving DecidableEq

/-- A stage result: `{passed, elements}` as built by each `validateXxx`
method of `src/ine-validator.js`. -/
structure StageResult where
  passed : Bool
  elements : List CheckElement
deriving DecidableEq

/-- The format stage's result additionally carries `documentType`
(source: `validateDocumentFormat`). -/
structure FormatResult where
  passed : Bool
  documentType : String
  elements : List CheckElement
deriving DecidableEq

/-- `results.elements.filter(e => e.passed).length` — the count of
passing outcomes used by every stage's pass policy. -/
def passCount (els : List CheckElement) : Nat :=
  (els.filter (fun e => e.passed)).length

/-- JS `Math.round`: round half toward positive infinity. -/
def jsRound (q : ℚ) : ℤ := ⌊q + 1/2⌋

/-- The decoded image abstraction produced by `createImage`: only the
`naturalWidth`/`naturalHeight` pixel dimensions are ever read. -/
structure Img where
  naturalWidth : Nat
  naturalHeight : Nat
deriving DecidableEq

/-- JS `String.prototype.startsWith`, implemented structurally over the
character list so that concrete instances evaluate inside the kernel. -/
def strStartsWith (s p : String) : Bool :=
  p.toList.isPrefixOf s.toList

/-- JS `s.split(',')[1]`: the characters strictly between the first
comma and the following comma (or the end of the string); `none` when
the string has no comma, as the JS index yields `undefined` then. -/
def afterFirstComma : List Char → Option (List Char)
  | [] => none
  | ',' :: rest => some (rest.takeWhile (fun c => c ≠ ','))
  | _ :: rest => afterFirstComma rest

/-- Source `extractFileSize(imageData)`: 0 unless a `data:` URL with a
non-empty base64 payload, else `Math.floor(len * 3 / 4)`. -/
def extractFileSize (imageData : String) : Nat :=
  if imageData = "" || !(strStartsWith imageData "data:") then 0
  else
    match afterFirstComma imageData.toList with
    | none => 0
    | some b64 => if b64 = [] then 0 else b64.length * 3 / 4

/-- Character class `[A-Z]`. -/
def isUpperAlpha (c : Char) : Bool := 'A' ≤ c && c ≤ 'Z'

/-- Character class `\d`. -/
def isDigitChar (c : Char) : Bool := '0' ≤ c && c ≤ '9'

/-- Character class `[A-Z0-9]`. -/
def isUpperAlphaNum (c : Char) : Bool := isUpperAlpha c || isDigitChar c

/-- Source `curpPattern` — the regex
`^[A-Z]{4}\d{6}[HM][A-Z]{5}[A-Z0-9]{2}$` as a decidable predicate. -/
def validateCURPFormat (s : String) : Bool :=
  let cs := s.toList
  cs.length = 18 &&
  (cs.take 4).all isUpperAlpha &&
  ((cs.drop 4).take 6).all isDigitChar &&
  (match cs.get? 10 with
   | some c => c = 'H' || c = 'M'
   | none => false) &&
  ((cs.drop 11).take 5).all isUpperAlpha &&
  (cs.drop 16).all isUpperAlphaNum

/-- Source `electorKeyPattern` — the regex
`^[A-Z]{4}\d{10}[A-Z0-9]{2}$` as a decidable predicate. -/
def validateElectorKeyFormat (s : String) : Bool :=
  let cs := s.toList
  cs.length = 16 &&
  (cs.take 4).all isUpperAlpha &&
  ((cs.drop 4).take 10).all isDigitChar &&
  (cs.drop 14).all isUpperAlphaNum

/-- Shared shape of the format stage's verdict: given the three computed
check booleans, build the elements list, the document type and the
stage `passed` flag exactly as lines 104-137 of the source do. -/
def formatVerdict (isCorrectAspect isSufficientSize isImage : Bool) : FormatResult :=
  let elements : List CheckElement :=
    [ { name := "Relación de aspecto", passed := isCorrectAspect },
      { name := "Tamaño suficiente", passed := isSufficientSize },
      { name := "Formato de imagen", passed := isImage } ]
  if isImage && isCorrectAspect && isSufficientSize then
    { passed := true, documentType := "potential_ine", elements := elements }
  else if isImage then
    { passed := false, documentType := "other_image", elements := elements }
  else
    { passed := false, documentType := "other_document", elements := elements }

/-- Source `validateDocumentFormat`.  `imgR` is the outcome of the
`createImage` await; if it rejects, the catch block records the single
failing element and `passed` keeps its initial `false`.  (JS note: when
`naturalHeight = 0` the JS aspect ratio is `Infinity` or `NaN` and both
range comparisons below conspire to make `isCorrectAspect` false, the
same value the Lean `x / 0 = 0` convention produces.) -/
def validateDocumentFormat (imgR : Except String Img) (imageData : String) : FormatResult :=
  match imgR with
  | .error _ =>
      { passed := false, documentType := "unknown",
        elements := [{ name := "Formato del documento", passed := false }] }
  | .ok img =>
      let aspect : ℚ := (img.naturalWidth : ℚ) / (img.naturalHeight : ℚ)
      formatVerdict
        (decide ((3 : ℚ)/2 ≤ aspect) && decide (aspect ≤ (17 : ℚ)/10))
        (decide (500 ≤ img.naturalWidth) && decide (300 ≤ img.naturalHeight))
        (strStartsWith imageData "data:image/")

/-- The data `extractTextFromImage` resolves with (dates already parsed
to epoch milliseconds, as `new Date(...)` does before comparison). -/
structure ExtractedData where
  curp : Option String
  electorKey : Option String
  fullName : Option String
  issueDate : Option Int
  expiryDate : Option Int
  model : Option String
deriving DecidableEq

/-- Detector environment of `validateStructure`: its two awaited
capability calls. -/
structure StructureEnv where
  extractText : Except String ExtractedData
  detectINEText : Except String Bool
deriving DecidableEq

/-- The element the structure stage's catch block records on a fault. -/
def structureErrorElement : CheckElement :=
  { name := "Estructura de datos", passed := false }

/-- Source `validateStructure`: CURP and elector-key format checks (a
missing value is a failing element), the INE-text detector, quorum 2 of
3.  A fault from `extractTextFromImage` is caught with no element yet
collected; a fault from `detectINEText` is caught after the first two
elements were pushed, and in both cases the final `results.passed`
assignment is skipped, leaving it `false`. -/
def validateStructure (env : StructureEnv) : StageResult :=
  match env.extractText with
  | .error _ => { passed := false, elements := [structureErrorElement] }
  | .ok data =>
      let curpEl : CheckElement :=
        match data.curp with
        | some c => { name := "Formato CURP", passed := validateCURPFormat c }
        | none => { name := "Formato CURP", passed := false }
      let keyEl : CheckElement :=
        match data.electorKey with
        | some k => { name := "Clave de elector", passed := validateElectorKeyFormat k }
        | none => { name := "Clave de elector", passed := false }
      match env.detectINEText with
      | .error _ => { passed := false, elements := [curpEl, keyEl, structureErrorElement] }
      | .ok t =>
          let els := [curpEl, keyEl, { name := "Texto oficial INE", passed := t }]
          { passed := decide (2 ≤ passCount els), elements := els }

/-- Detector environment of `validateOfficialDesign`: `createImage`
plus its three awaited detector capabilities (of `analyzeColors` only
the `hasOfficialColors` flag feeds a `passed` field). -/
structure DesignEnv where
  img : Except String Img
  analyzeColors : Except String Bool
  detectOfficialElements : Except String Bool
  validateLayout : Except String Bool
deriving DecidableEq

/-- The element the design stage's catch block records on a fault. -/
def designErrorElement : CheckElement :=
  { name := "Diseño oficial", passed := false }

/-- Source `validateOfficialDesign`: three detectors awaited in order
inside one try block, quorum 2 of 3.  A fault is caught at stage level:
the elements pushed so far are kept, one failing element is recorded,
later detectors are never awaited, and `passed` keeps its initial
`false`. -/
def validateOfficialDesign (env : DesignEnv) : StageResult :=
  match env.img with
  | .error _ => { passed := false, elements := [designErrorElement] }
  | .ok _ =>
  match env.analyzeColors with
  | .error _ => { passed := false, elements := [designErrorElement] }
  | .ok hasColors =>
  let e1 : CheckElement := { name := "Espectro de colores", passed := hasColors }
  match env.detectOfficialElements with
  | .error _ => { passed := false, elements := [e1, designErrorElement] }
  | .ok off =>
  let e2 : CheckElement := { name := "Elementos gráficos oficiales", passed := off }
  match env.validateLayout with
  | .error _ => { passed := false, elements := [e1, e2, designErrorElement] }
  | .ok lay =>
  let els := [e1, e2, { name := "Distribución espacial", passed := lay }]
  { passed := decide (2 ≤ passCount els), elements := els }

/-- Detector environment of `validateSecurityElements`. -/
structure SecurityEnv where
  img : Except String Img
  detectSecurityPatterns : Except String Bool
  analyzeImageQuality : Except String Bool
  detectReliefElements : Except String Bool
deriving DecidableEq

/-- The element the security stage's catch block records on a fault. -/
def securityErrorElement : CheckElement :=
  { name := "Elementos de seguridad", passed := false }

/-- Source `validateSecurityElements`: same shape as the design stage
(of `analyzeImageQuality` only `isHighQuality` feeds `passed`). -/
def validateSecurityElements (env : SecurityEnv) : StageResult :=
  match env.img with
  | .error _ => { passed := false, elements := [securityErrorElement] }
  | .ok _ =>
  match env.detectSecurityPatterns with
  | .error _ => { passed := false, elements := [securityErrorElement] }
  | .ok pat =>
  let e1 : CheckElement := { name := "Patrones de seguridad", passed := pat }
  match env.analyzeImageQuality with
  | .error _ => { passed := false, elements := [e1, securityErrorElement] }
  | .ok hq =>
  let e2 : CheckElement := { name := "Calidad de impresión", passed := hq }
  match env.detectReliefElements with
  | .error _ => { passed := false, elements := [e1, e2, securityErrorElement] }
  | .ok rel =>
  let els := [e1, e2, { name := "Elementos en relieve", passed := rel }]
  { passed := decide (2 ≤ passCount els), elements := els }

/-- Source `checkValidityPeriod(...).valid`: the difference in years is
`(expiry - issue) / (1000*60*60*24*365)`; invalid above 10 or below 1. -/
def checkValidityPeriodValid (issue expiry : Int) : Bool :=
  let diffYears : ℚ := ((expiry - issue : Int) : ℚ) / 31536000000
  if 10 < diffYears then false
  else if diffYears < 1 then false
  else true

/-- Source `validateModel`: membership in the valid model list. -/
def validateModel (model : Option String) : Bool :=
  match model with
  | some m => m = "D" || m = "E" || m = "F" || m = "G" || m = "H"
  | none => false

/-- Environment of `validateValidity`: the awaited text extraction and
the wall clock read by `new Date()` (epoch milliseconds). -/
structure ValidityEnv where
  extractText : Except String ExtractedData
  currentDate : Int
deriving DecidableEq

/-- The element the validity stage's catch block records on a fault. -/
def validityErrorElement : CheckElement :=
  { name := "Vigencia", passed := false }

/-- Source `validateValidity`: with both dates present, the
not-expired, validity-period and model checks; otherwise one failing
"missing dates" element.  Quorum 2, applied in both branches. -/
def validateValidity (env : ValidityEnv) : StageResult :=
  match env.extractText with
  | .error _ => { passed := false, elements := [validityErrorElement] }
  | .ok data =>
      match data.issueDate, data.expiryDate with
      | some issue, some expiry =>
          let els : List CheckElement :=
            [ { name := "No expirada", passed := decide (env.currentDate < expiry) },
              { name := "Período de validez", passed := checkValidityPeriodValid issue expiry },
              { name := "Modelo vigente", passed := validateModel data.model } ]
          { passed := decide (2 ≤ passCount els), elements := els }
      | _, _ =>
          let els : List CheckElement :=
            [{ name := "Fechas de vigencia", passed := false }]
          { passed := decide (2 ≤ passCount els), elements := els }

/-- The per-stage weight table of `calculateScore` in
`src/ine-validator.js` (`format` 20, `structure` 25, `design` 20,
`security` 25, `validity` 10).  The claims about the aggregator only
ever look up the five configured categories, so the JS `undefined`
produced for any other key never arises; mapping unknown keys to `0`
keeps the function total without touching any claim. -/
def weightsMain : String → ℚ := fun c =>
  if c = "format" then 20
  else if c = "structure" then 25
  else if c = "design" then 20
  else if c = "security" then 25
  else if c = "validity" then 10
  else 0

/-- One loop iteration's addition to `totalScore` in `calculateScore`:
categories with a non-empty elements list contribute
`(passCount / length * 100) * (weight / 100)`, empty ones are skipped
(contribute nothing — in particular the `passCount / length` division
is never performed on an empty list). -/
def stageContribution (w : String → ℚ) (entry : String × StageResult) : ℚ :=
  if entry.2.elements.length ≠ 0 then
    ((passCount entry.2.elements : ℚ) / (entry.2.elements.length : ℚ) * 100) * (w entry.1 / 100)
  else 0

/-- `totalScore` after the loop of `calculateScore`. -/
def calcTotal (w : String → ℚ) (details : List (String × StageResult)) : ℚ :=
  (details.map (stageContribution w)).sum

/-- `maxScore` after the loop of `calculateScore`: the weight of every
category in `details`, including zero-outcome ones. -/
def calcMax (w : String → ℚ) (details : List (String × StageResult)) : ℚ :=
  (details.map (fun e => w e.1)).sum

/-- Source `calculateScore`, parameterized by the weight table:
`Math.round((totalScore / maxScore) * 100)`. -/
def calculateScoreW (w : String → ℚ) (details : List (String × StageResult)) : ℤ :=
  jsRound (calcTotal w details / calcMax w details * 100)

/-- Source `calculateScore` with its own weight table. -/
def calculateScore (details : List (String × StageResult)) : ℤ :=
  calculateScoreW weightsMain details

/-- The recommendation `generateRecommendations` emits for a failing
format stage. -/
def formatFailMsgRec : String := "El documento no tiene el formato adecuado de una INE"

/-- The single recommendation `validateINE` installs when the gating
format stage fails (line 47 of the source). -/
def gatingMsg : String := "El documento no tiene el formato adecuado para ser una INE válida"

/-- The structure-deficiency recommendation. -/
def structureMsg : String := "Verificar la estructura de datos (CURP y clave de elector)"

/-- The design-deficiency recommendation. -/
def designMsg : String := "El diseño no coincide con los estándares oficiales del INE"

/-- The security-deficiency recommendation. -/
def securityMsg : String := "Faltan elementos de seguridad característicos del INE"

/-- The validity-deficiency recommendation (same string in both
copies). -/
def validityMsg : String := "Verificar la vigencia de la credencial"

/-- The affirmative recommendation when nothing failed (same string in
both copies). -/
def allPassedMsg : String := "La credencial pasó todas las validaciones principales"

/-- `details.c && !details.c.passed`: the category is present in the
report's details and its stage failed. -/
def stageFailed (details : List (String × StageResult)) (c : String) : Bool :=
  match details.lookup c with
  | some r => !r.passed
  | none => false

/-- Source `generateRecommendations` of `src/ine-validator.js`: one
fixed message per failing stage, checked in pipeline order; a failing
format stage short-circuits with its single message; an empty list is
replaced by the single affirmative message. -/
def generateRecommendations (details : List (String × StageResult)) : List String :=
  if stageFailed details "format" then [formatFailMsgRec]
  else
    let recs :=
      (if stageFailed details "structure" then [structureMsg] else []) ++
      (if stageFailed details "design" then [designMsg] else []) ++
      (if stageFailed details "security" then [securityMsg] else []) ++
      (if stageFailed details "validity" then [validityMsg] else [])
    if recs.isEmpty then [allPassedMsg] else recs

/-- The structure-deficiency recommendation of the legacy copy. -/
def structureMsgV0 : String := "Verificar la estructura de CURP y clave de elector"

/-- The visible-elements recommendation of the legacy copy. -/
def visibleMsgV0 : String := "Múltiples elementos de seguridad visibles no detectados"

/-- Source `generateRecommendations` of `src/unnamed/part_000` (lines
378-401): only `structure`, `visible` and `validity` can contribute a
message; `visible` contributes one exactly when more than two of its
elements failed (its `passed` flag is not consulted), and the
`secondLevel` and `qr` stages are never examined at all. -/
def generateRecommendationsV0 (details : List (String × StageResult)) : List String :=
  let recs :=
    (if stageFailed details "structure" then [structureMsgV0] else []) ++
    (match details.lookup "visible" with
     | some r => if 2 < (r.elements.filter (fun e => !e.passed)).length then [visibleMsgV0] else []
     | none => []) ++
    (if stageFailed details "validity" then [validityMsg] else [])
  if recs.isEmpty then [allPassedMsg] else recs

/-- The `ValidationReport` built by `validateINE` (presentational HTML
rendering excluded; `details` keeps JS object insertion order as an
association list). -/
structure Report where
  isValid : Bool
  score : ℤ
  details : List (String × StageResult)
  recommendations : List String
  fileSize : Nat
  documentType : String
  error : Option String
deriving DecidableEq

/-- Forget the format-specific `documentType` field when storing the
format result into `results.details`. -/
def FormatResult.toStage (f : FormatResult) : StageResult :=
  { passed := f.passed, elements := f.elements }

/-- The orchestrator's view of one run: the outcome of each awaited
stage call inside the try block of `validateINE`.  `.error` models the
await rejecting, which transfers control to the catch block at lines
74-78. -/
structure StageEnv where
  format : Except String FormatResult
  structureStage : Except String StageResult
  design : Except String StageResult
  security : Except String StageResult
  validity : Except String StageResult
deriving DecidableEq

/-- Source `validateINE` of `src/ine-validator.js` (lines 25-80): runs
the five stages in order, records each result in `details` as it
arrives, stops with the gating report if the format stage fails, and on
any fault returns the report built so far with `error` set (score and
verdict still holding their initial `0` / `false`, because the fault
necessarily happened before the score assignment). -/
def validateINE (env : StageEnv) (imageData : String) : Report :=
  let base : Report :=
    { isValid := false, score := 0, details := [], recommendations := [],
      fileSize := extractFileSize imageData, documentType := "unknown", error := none }
  match env.format with
  | .error e => { base with error := some e }
  | .ok f =>
    let base := { base with details := [("format", f.toStage)], documentType := f.documentType }
    if !f.passed then
      { base with score := 0, isValid := false, recommendations := [gatingMsg] }
    else
      match env.structureStage with
      | .error e => { base with error := some e }
      | .ok s =>
        let base := { base with details := base.details ++ [("structure", s)] }
        match env.design with
        | .error e => { base with error := some e }
        | .ok d =>
          let base := { base with details := base.details ++ [("design", d)] }
          match env.security with
          | .error e => { base with error := some e }
          | .ok sec =>
            let base := { base with details := base.details ++ [("security", sec)] }
            match env.validity with
            | .error e => { base with error := some e }
            | .ok v =>
              let details := base.details ++ [("validity", v)]
              let score := calculateScore details
              { base with
                details := details
                score := score
                isValid := decide (70 ≤ score)
                recommendations := generateRecommendations details }

/-- The composed pipeline: each stage call resolves with the result of
the corresponding (internally fault-catching) stage function. -/
def runPipeline (fe : Except String Img) (imageData : String) (se : StructureEnv)
    (de : DesignEnv) (sce : SecurityEnv) (ve : ValidityEnv) : Report :=
  validateINE
    { format := .ok (validateDocumentFormat fe imageData),
      structureStage := .ok (validateStructure se),
      design := .ok (validateOfficialDesign de),
      security := .ok (validateSecurityElements sce),
      validity := .ok (validateValidity ve) }
    imageData

/-- A collected outcome of the legacy copy's element loops, which also
record a `confidence` percentage (a fresh `Math.random()` draw). -/
structure CheckElementC where
  name : String
  passed : Bool
  confidence : ℚ
deriving DecidableEq

/-- A stage result of the legacy copy's visible-elements stage. -/
structure StageResultC where
  passed : Bool
  elements : List CheckElementC
deriving DecidableEq

/-- Detector outcomes for the legacy copy's `validateVisibleElements`
(the five dynamically dispatched `detectXxx` stubs). -/
structure VisibleEnv where
  detectMicrotext : Bool
  detectOVD : Bool
  detectUVInk : Bool
  detectRelief : Bool
  detectSecurityBackground : Bool
deriving DecidableEq

/-- The confidence recorded for the i-th element:
`detected ? Math.random()*30 + 70 : Math.random()*30`, with `rng i` the
i-th `Math.random()` draw of the loop. -/
def visConfidence (rng : Nat → ℚ) (i : Nat) (detected : Bool) : ℚ :=
  if detected then rng i * 30 + 70 else rng i * 30

/-- Source `validateVisibleElements` of `src/unnamed/part_000` (lines
107-135): the `elementsToCheck` loop unrolled over its five fixed
detectors, each recording one element with a randomized confidence;
quorum 3 of 5.  `rng` is the stream of `Math.random()` draws the loop
consumes, one per iteration. -/
def validateVisibleElements (env : VisibleEnv) (rng : Nat → ℚ) : StageResultC :=
  let els : List CheckElementC :=
    [ { name := "Microtexto INE", passed := env.detectMicrotext,
        confidence := visConfidence rng 0 env.detectMicrotext },
      { name := "Elementos OVD/OVI", passed := env.detectOVD,
        confidence := visConfidence rng 1 env.detectOVD },
      { name := "Tintas UV", passed := env.detectUVInk,
        confidence := visConfidence rng 2 env.detectUVInk },
      { name := "Relieve táctil", passed := env.detectRelief,
        confidence := visConfidence rng 3 env.detectRelief },
      { name := "Fondo de seguridad", passed := env.detectSecurityBackground,
        confidence := visConfidence rng 4 env.detectSecurityBackground } ]
  { passed := decide (3 ≤ (els.filter (fun e => e.passed)).length), elements := els }

/-- The five stage ids in pipeline order. -/
def pipelineIds : List String :=
  ["format", "structure", "design", "security", "validity"]

theorem weightsMain_format : weightsMain "format" = 20 := by rfl

theorem weightsMain_structure : weightsMain "structure" = 25 := by rfl

theorem weightsMain_design : weightsMain "design" = 20 := by rfl

theorem weightsMain_security : weightsMain "security" = 25 := by rfl

theorem weightsMain_validity : weightsMain "validity" = 10 := by rfl

/-- C1: whenever the gating format stage runs and fails, `validateINE`
returns the report whose stage mapping holds exactly the format entry,
with `score = 0`, `isValid = false`, exactly one recommendation
explaining the gating failure, and no error; no downstream stage
result, synthetic or otherwise, is present. -/
theorem gating_short_circuit (env : StageEnv) (imageData : String) (f : FormatResult)
    (hf : env.format = .ok f) (hp : f.passed = false) :
    validateINE env imageData =
      { isValid := false, score := 0, details := [("format", f.toStage)],
        recommendations := [gatingMsg], fileSize := extractFileSize imageData,
        documentType := f.documentType, error := none } := by
  obtain ⟨fmt, s, d, sec, v⟩ := env
  cases hf
  simp [validateINE, hp]

/-- Concrete instance of the gating theorem: a failing format result
produced by an image that fails to load. -/
def gateEnv : StageEnv :=
  { format := .ok ⟨false, "other_document",
      [⟨"Relación de aspecto", false⟩, ⟨"Tamaño suficiente", false⟩, ⟨"Formato de imagen", false⟩]⟩,
    structureStage := .ok ⟨true, []⟩, design := .ok ⟨true, []⟩,
    security := .ok ⟨true, []⟩, validity := .ok ⟨true, []⟩ }

/-- Witness for C1 at a concrete failing format stage. -/
theorem gating_short_circuit_witness :
    validateINE gateEnv "" =
      { isValid := false, score := 0,
        details := [("format", ⟨false,
          [⟨"Relación de aspecto", false⟩, ⟨"Tamaño suficiente", false⟩, ⟨"Formato de imagen", false⟩]⟩)],
        recommendations := [gatingMsg], fileSize := 0,
        documentType := "other_document", error := none } :=
  gating_short_circuit gateEnv ""
    ⟨false, "other_document",
      [⟨"Relación de aspecto", false⟩, ⟨"Tamaño suficiente", false⟩, ⟨"Formato de imagen", false⟩]⟩
    rfl rfl

/-- C2: `validateINE` is total (the embedding is a function into
`Report`), its stage mapping always lists a prefix of the pipeline in
execution order, and whenever a stage fault was captured (`error`
populated), the report still carries the initial `isValid = false` and
`score = 0`, because every fault point precedes the score
assignment. -/
theorem validateINE_fault_contract (env : StageEnv) (imageData : String) :
    (∃ n, (validateINE env imageData).details.map Prod.fst = pipelineIds.take n) ∧
    ((validateINE env imageData).error.isSome = true →
      (validateINE env imageData).isValid = false ∧ (validateINE env imageData).score = 0) := by
  obtain ⟨fmt, s, d, sec, v⟩ := env
  cases fmt with
  | error e => exact ⟨⟨0, rfl⟩, fun _ => ⟨rfl, rfl⟩⟩
  | ok f =>
    cases hp : f.passed with
    | false =>
      refine ⟨⟨1, ?_⟩, fun h => ?_⟩
      · simp [validateINE, hp, pipelineIds]
      · simp [validateINE, hp] at h
    | true =>
      cases s with
      | error e =>
        refine ⟨⟨1, ?_⟩, fun h => ?_⟩ <;> simp [validateINE, hp, pipelineIds]
      | ok sr =>
        cases d with
        | error e =>
          refine ⟨⟨2, ?_⟩, fun h => ?_⟩ <;> simp [validateINE, hp, pipelineIds]
        | ok dr =>
          cases sec with
          | error e =>
            refine ⟨⟨3, ?_⟩, fun h => ?_⟩ <;> simp [validateINE, hp, pipelineIds]
          | ok secr =>
            cases v with
            | error e =>
              refine ⟨⟨4, ?_⟩, fun h => ?_⟩ <;> simp [validateINE, hp, pipelineIds]
            | ok vr =>
              refine ⟨⟨5, ?_⟩, fun h => ?_⟩
              · simp [validateINE, hp, pipelineIds]
              · exfalso
                simp [validateINE, hp] at h

/-- A run whose structure-stage call faults. -/
def faultEnv : StageEnv :=
  { format := .ok ⟨true, "potential_ine", [⟨"Formato de imagen", true⟩]⟩,
    structureStage := .error "TypeError: network failure",
    design := .ok ⟨true, []⟩, security := .ok ⟨true, []⟩, validity := .ok ⟨true, []⟩ }

/-- Witness for C2: at a concrete faulting run the captured fault
coexists with `isValid = false` and `score = 0`. -/
theorem validateINE_fault_contract_witness :
    (validateINE faultEnv "").isValid = false ∧ (validateINE faultEnv "").score = 0 :=
  (validateINE_fault_contract faultEnv "").2 (by decide)

theorem formatVerdict_quorum :
    ∀ a b c : Bool, (formatVerdict a b c).passed =
      decide (3 ≤ passCount (formatVerdict a b c).elements) := by decide

/-- C3 (amended): the quorum law on collected outcomes.  The format
stage satisfies it unconditionally with k = 3 (its all-of-three
conjunction is count-equivalent, and its single fault point leaves one
failing outcome); every downstream stage satisfies it with k = 2
provided no detector faulted during the stage — the fault paths are
carved out, see the counterexample. -/
theorem stage_quorum_law :
    (∀ (imgR : Except String Img) (imageData : String),
      (validateDocumentFormat imgR imageData).passed =
        decide (3 ≤ passCount (validateDocumentFormat imgR imageData).elements)) ∧
    (∀ (data : ExtractedData) (t : Bool),
      (validateStructure ⟨.ok data, .ok t⟩).passed =
        decide (2 ≤ passCount (validateStructure ⟨.ok data, .ok t⟩).elements)) ∧
    (∀ (i : Img) (c o l : Bool),
      (validateOfficialDesign ⟨.ok i, .ok c, .ok o, .ok l⟩).passed =
        decide (2 ≤ passCount (validateOfficialDesign ⟨.ok i, .ok c, .ok o, .ok l⟩).elements)) ∧
    (∀ (i : Img) (p q r : Bool),
      (validateSecurityElements ⟨.ok i, .ok p, .ok q, .ok r⟩).passed =
        decide (2 ≤ passCount (validateSecurityElements ⟨.ok i, .ok p, .ok q, .ok r⟩).elements)) ∧
    (∀ (data : ExtractedData) (now : Int),
      (validateValidity ⟨.ok data, now⟩).passed =
        decide (2 ≤ passCount (validateValidity ⟨.ok data, now⟩).elements)) := by
  refine ⟨?_, ?_, ?_, ?_, ?_⟩
  · intro imgR imageData
    cases imgR with
    | error e => rfl
    | ok img => exact formatVerdict_quorum _ _ _
  · intro data t
    rfl
  · intro i c o l
    rfl
  · intro i p q r
    rfl
  · intro data now
    rcases data with ⟨cu, ek, nm, iss, exp, mo⟩
    cases iss <;> cases exp <;> rfl

/-- A structure-stage run whose CURP and elector-key checks both pass
before the `detectINEText` detector faults. -/
def structureFaultEnv : StructureEnv :=
  ⟨.ok ⟨some "GOME800705HDFMLR09", some "ABCD123456789012", none, none, none, none⟩,
   .error "detector error"⟩

/-- C3 counterexample: this stage collected outcomes meeting the quorum
(2 of its 3 outcomes passed, k = 2), yet its `passed` flag is `false`,
because the fault was caught before the `results.passed` assignment at
line 210 ran.  The claim "`passed` is true iff at least k outcomes
passed" is therefore false of the code. -/
theorem quorum_fault_counterexample :
    (validateStructure structureFaultEnv).passed = false ∧
    2 ≤ passCount (validateStructure structureFaultEnv).elements := by decide

/-- C7 (amended): a faulting detector inside a stage is caught by the
stage-level handler: the stage still returns a `StageResult`, the
outcomes collected before the fault are kept, and exactly one failing
error outcome is appended — but the detectors after the faulting one
are skipped, so their outcomes are absent (here `validateLayout` is
arbitrary and unused). -/
theorem design_fault_recorded_as_single_outcome (i : Img) (c : Bool) (e : String)
    (lay : Except String Bool) :
    validateOfficialDesign ⟨.ok i, .ok c, .error e, lay⟩ =
      ⟨false, [⟨"Espectro de colores", c⟩, designErrorElement]⟩ := rfl

/-- A design-stage run whose second detector faults while the third
detector would have returned a passing outcome. -/
def designFaultEnv : DesignEnv :=
  ⟨.ok ⟨800, 500⟩, .ok true, .error "boom", .ok true⟩

/-- C7 counterexample: the layout detector resolved with `true`, yet
the stage's collected outcomes hold only the pre-fault color outcome
and the single error outcome — the other detector's outcome was NOT
still collected, refuting the claim at this input. -/
theorem design_fault_drops_later_outcome :
    validateOfficialDesign designFaultEnv =
      ⟨false, [⟨"Espectro de colores", true⟩, ⟨"Diseño oficial", false⟩]⟩ ∧
    designFaultEnv.validateLayout = .ok true := by decide

/-- A 860x540 image: aspect 1.59 in range, size above 500x300. -/
def scenarioImg : Img := ⟨860, 540⟩

/-- A well-formed image data URL. -/
def scenarioURL : String := "data:image/jpeg;base64,AAAA"

/-- Structure stage for the scenario: no CURP and no elector key
detected, INE text detected — 1 of 3 checks passes. -/
def scenarioStructureEnv : StructureEnv :=
  ⟨.ok ⟨none, none, none, none, none, none⟩, .ok true⟩

/-- Design stage for the scenario: all detectors pass. -/
def scenarioDesignEnv : DesignEnv := ⟨.ok scenarioImg, .ok true, .ok true, .ok true⟩

/-- Security stage for the scenario: all detectors pass. -/
def scenarioSecurityEnv : SecurityEnv := ⟨.ok scenarioImg, .ok true, .ok true, .ok true⟩

/-- Validity stage for the scenario: issue at epoch 0, expiry two years
later, current date at epoch 0, model G — all 3 checks pass. -/
def scenarioValidityEnv : ValidityEnv :=
  ⟨.ok ⟨none, none, none, some 0, some 63072000000, some "G"⟩, 0⟩

/-- The scenario report: format 3/3, structure 1/3, design 3/3,
security 3/3, validity 3/3. -/
def scenarioReport : Report :=
  runPipeline (.ok scenarioImg) scenarioURL scenarioStructureEnv scenarioDesignEnv
    scenarioSecurityEnv scenarioValidityEnv

/-- The stage mapping the scenario produces. -/
def scenarioDetails : List (String × StageResult) :=
  [ ("format", ⟨true, [⟨"Relación de aspecto", true⟩, ⟨"Tamaño suficiente", true⟩,
      ⟨"Formato de imagen", true⟩]⟩),
    ("structure", ⟨false, [⟨"Formato CURP", false⟩, ⟨"Clave de elector", false⟩,
      ⟨"Texto oficial INE", true⟩]⟩),
    ("design", ⟨true, [⟨"Espectro de colores", true⟩, ⟨"Elementos gráficos oficiales", true⟩,
      ⟨"Distribución espacial", true⟩]⟩),
    ("security", ⟨true, [⟨"Patrones de seguridad", true⟩, ⟨"Calidad de impresión", true⟩,
      ⟨"Elementos en relieve", true⟩]⟩),
    ("validity", ⟨true, [⟨"No expirada", true⟩, ⟨"Período de validez", true⟩,
      ⟨"Modelo vigente", true⟩]⟩) ]

theorem scenario_score_eq : calculateScore scenarioDetails = 83 := by
  norm_num [calculateScore, calculateScoreW, calcTotal, calcMax, stageContribution,
    passCount, scenarioDetails, jsRound, List.filter, weightsMain_format,
    weightsMain_structure, weightsMain_design, weightsMain_security, weightsMain_validity]

theorem scenario_format_eq : validateDocumentFormat (.ok scenarioImg) scenarioURL =
    ⟨true, "potential_ine", [⟨"Relación de aspecto", true⟩, ⟨"Tamaño suficiente", true⟩,
      ⟨"Formato de imagen", true⟩]⟩ := by
  simp only [validateDocumentFormat, scenarioImg]
  norm_num
  decide

theorem scenario_structure_eq : validateStructure scenarioStructureEnv =
    ⟨false, [⟨"Formato CURP", false⟩, ⟨"Clave de elector", false⟩,
      ⟨"Texto oficial INE", true⟩]⟩ := by decide

theorem scenario_design_eq : validateOfficialDesign scenarioDesignEnv =
    ⟨true, [⟨"Espectro de colores", true⟩, ⟨"Elementos gráficos oficiales", true⟩,
      ⟨"Distribución espacial", true⟩]⟩ := by decide

theorem scenario_security_eq : validateSecurityElements scenarioSecurityEnv =
    ⟨true, [⟨"Patrones de seguridad", true⟩, ⟨"Calidad de impresión", true⟩,
      ⟨"Elementos en relieve", true⟩]⟩ := by decide

theorem scenario_validity_eq : validateValidity scenarioValidityEnv =
    ⟨true, [⟨"No expirada", true⟩, ⟨"Período de validez", true⟩,
      ⟨"Modelo vigente", true⟩]⟩ := by
  have h : checkValidityPeriodValid 0 63072000000 = true := by
    norm_num [checkValidityPeriodValid]
  simp only [validateValidity, scenarioValidityEnv, h]
  decide

/-- The scenario's stage results as an orchestrator environment. -/
def scenarioStageEnv : StageEnv :=
  { format := .ok ⟨true, "potential_ine", [⟨"Relación de aspecto", true⟩,
      ⟨"Tamaño suficiente", true⟩, ⟨"Formato de imagen", true⟩]⟩,
    structureStage := .ok ⟨false, [⟨"Formato CURP", false⟩, ⟨"Clave de elector", false⟩,
      ⟨"Texto oficial INE", true⟩]⟩,
    design := .ok ⟨true, [⟨"Espectro de colores", true⟩, ⟨"Elementos gráficos oficiales", true⟩,
      ⟨"Distribución espacial", true⟩]⟩,
    security := .ok ⟨true, [⟨"Patrones de seguridad", true⟩, ⟨"Calidad de impresión", true⟩,
      ⟨"Elementos en relieve", true⟩]⟩,
    validity := .ok ⟨true, [⟨"No expirada", true⟩, ⟨"Período de validez", true⟩,
      ⟨"Modelo vigente", true⟩]⟩ }

/-- C4: in the five-stage scenario (weights 20/25/20/25/10; format 3/3
so the pipeline continues; structure 1/3 so `structure.passed = false`;
design, security and validity all pass), the report has `score = 83`,
`isValid = true`, and exactly the one structure-deficiency
recommendation. -/
theorem scenario_weighted_score_83 :
    scenarioReport.score = 83 ∧ scenarioReport.isValid = true ∧
    scenarioReport.recommendations = [structureMsg] ∧
    (scenarioReport.details.lookup "structure").map StageResult.passed = some false := by
  have henv : scenarioReport = validateINE scenarioStageEnv scenarioURL := by
    rw [scenarioReport, runPipeline, scenario_format_eq, scenario_structure_eq,
      scenario_design_eq, scenario_security_eq, scenario_validity_eq]
    rfl
  refine ⟨?_, ?_, ?_, ?_⟩
  · rw [henv]
    show calculateScore scenarioDetails = 83
    exact scenario_score_eq
  · rw [henv]
    show decide ((70 : ℤ) ≤ calculateScore scenarioDetails) = true
    rw [scenario_score_eq]
    decide
  · rw [henv]
    show generateRecommendations scenarioDetails = [structureMsg]
    decide
  · rw [henv]
    show ((scenarioDetails.lookup "structure").map StageResult.passed) = some false
    decide

/-- The four non-gating stage ids in pipeline order. -/
def downstreamIds : List String := ["structure", "design", "security", "validity"]

/-- The stage-specific deficiency message of each downstream stage. -/
def stageMsg : String → String := fun c =>
  if c = "structure" then structureMsg
  else if c = "design" then designMsg
  else if c = "security" then securityMsg
  else validityMsg

/-- C5 (amended, for `src/ine-validator.js`): the synthesizer returns
the gating message alone when the format stage failed; otherwise it
returns exactly one stage-specific message per failing downstream
stage, in pipeline order (one per stage, never one per failing check),
or the single affirmative message when none failed; and the returned
list never holds duplicates. -/
theorem generateRecommendations_spec (details : List (String × StageResult)) :
    generateRecommendations details =
      (if stageFailed details "format" then [formatFailMsgRec]
       else if (downstreamIds.filter (stageFailed details)) = [] then [allPassedMsg]
       else (downstreamIds.filter (stageFailed details)).map stageMsg) ∧
    (generateRecommendations details).Nodup := by
  cases hf : stageFailed details "format" <;>
  cases h1 : stageFailed details "structure" <;>
  cases h2 : stageFailed details "design" <;>
  cases h3 : stageFailed details "security" <;>
  cases h4 : stageFailed details "validity" <;>
  exact ⟨by simp [generateRecommendations, downstreamIds, stageMsg, hf, h1, h2, h3, h4],
         by simp only [generateRecommendations, hf, h1, h2, h3, h4]; decide⟩

/-- A full legacy-copy run in which only the `secondLevel` stage failed
(0 of 3 checks passed) while every other stage passed. -/
def legacyDetails : List (String × StageResult) :=
  [ ("structure", ⟨true, [⟨"CURP", true⟩, ⟨"Clave de Elector", true⟩,
      ⟨"Consistencia de datos", true⟩]⟩),
    ("visible", ⟨true, [⟨"Microtexto INE", true⟩, ⟨"Elementos OVD/OVI", true⟩,
      ⟨"Tintas UV", true⟩, ⟨"Relieve táctil", true⟩, ⟨"Fondo de seguridad", true⟩]⟩),
    ("secondLevel", ⟨false, [⟨"Microtexto en bordes", false⟩,
      ⟨"Patrones de líneas finas", false⟩, ⟨"Impresión arcoíris", false⟩]⟩),
    ("qr", ⟨true, [⟨"Estructura QR", true⟩, ⟨"Firma digital", true⟩,
      ⟨"Consistencia datos", true⟩]⟩),
    ("validity", ⟨true, [⟨"No expirada", true⟩, ⟨"Modelo vigente", true⟩,
      ⟨"Período de validez", true⟩]⟩) ]

/-- C5 counterexample: in the legacy copy a failing executed stage
(`secondLevel`) produces no message at all — worse, the affirmative
"everything passed" message is returned — refuting "for each failing
executed stage, exactly one stage-specific message". -/
theorem legacy_affirm_despite_failure :
    generateRecommendationsV0 legacyDetails = [allPassedMsg] ∧
    stageFailed legacyDetails "secondLevel" = true := by decide

/-- C8: the aggregator is total on zero-outcome stages: such a stage's
loop iteration adds nothing to `totalScore` (its guarded division is
never performed, so 0/0 is in effect 0, never 100), while its weight
still enters `maxScore`; consequently appending a zero-outcome stage
only enlarges the denominator. -/
theorem zero_outcome_stage_scores_zero (w : String → ℚ)
    (details : List (String × StageResult)) (c : String) (b : Bool) :
    stageContribution w (c, ⟨b, []⟩) = 0 ∧
    calcTotal w (details ++ [(c, ⟨b, []⟩)]) = calcTotal w details ∧
    calcMax w (details ++ [(c, ⟨b, []⟩)]) = calcMax w details + w c ∧
    calculateScoreW w (details ++ [(c, ⟨b, []⟩)]) =
      jsRound (calcTotal w details / (calcMax w details + w c) * 100) := by
  have h0 : stageContribution w (c, ⟨b, []⟩) = 0 := rfl
  have ht : calcTotal w (details ++ [(c, ⟨b, []⟩)]) = calcTotal w details := by
    simp [calcTotal, List.map_append, List.sum_append, h0]
  have hm : calcMax w (details ++ [(c, ⟨b, []⟩)]) = calcMax w details + w c := by
    simp [calcMax, List.map_append, List.sum_append]
  exact ⟨h0, ht, hm, by rw [calculateScoreW, ht, hm]⟩

/-- A constant stream of `Math.random()` draws, all 0. -/
def rngZero : Nat → ℚ := fun _ => 0

/-- A constant stream of `Math.random()` draws, all 1/2. -/
def rngHalf : Nat → ℚ := fun _ => 1/2

/-- Identical detector outcomes: all five visible elements detected. -/
def visibleAllDetected : VisibleEnv := ⟨true, true, true, true, true⟩

/-- C9 counterexample: two runs of the legacy copy's visible-elements
stage with identical detector outcomes but different `Math.random()`
draws produce different stage results (confidence 70 vs 85 on the first
element), so the report containing them differs as well: determinism
given identical detector outcomes fails on the code. -/
theorem visible_confidence_random_counterexample :
    validateVisibleElements visibleAllDetected rngZero ≠
      validateVisibleElements visibleAllDetected rngHalf := by
  intro h
  have h2 := congrArg (fun r => r.elements.map (fun e => e.confidence)) h
  simp only [validateVisibleElements, visibleAllDetected, visConfidence, rngZero, rngHalf,
    List.map] at h2
  norm_num at h2

/-- C9 (amended): no randomness reaches any pass/fail decision — the
stage's `passed` flag and every outcome's (name, passed) pair are
independent of the random draws; only the recorded confidence values
depend on them (see the counterexample). -/
theorem visible_passed_rng_independent (env : VisibleEnv) (r1 r2 : Nat → ℚ) :
    (validateVisibleElements env r1).passed = (validateVisibleElements env r2).passed ∧
    (validateVisibleElements env r1).elements.map (fun e => (e.name, e.passed)) =
      (validateVisibleElements env r2).elements.map (fun e => (e.name, e.passed)) := by
  obtain ⟨a, b, c, d, e⟩ := env
  cases a <;> cases b <;> cases c <;> cases d <;> cases e <;> exact ⟨rfl, rfl⟩

/-- C6: for every weight table that is positive on the executed stages
and every run with at least one executed stage in which every executed
stage collected at least one outcome and every collected outcome
passed, the aggregated score is exactly 100. -/
theorem all_pass_score_100 (w : String → ℚ) (details : List (String × StageResult))
    (hne : details ≠ [])
    (hw : ∀ p ∈ details, 0 < w p.1)
    (hall : ∀ p ∈ details, p.2.elements ≠ [] ∧ ∀ el ∈ p.2.elements, el.passed = true) :
    calculateScoreW w details = 100 := by
  have hcontrib : ∀ p ∈ details, stageContribution w p = w p.1 := by
    intro p hp
    obtain ⟨hne2, hpass⟩ := hall p hp
    have hlen : p.2.elements.length ≠ 0 := by
      simpa [List.length_eq_zero] using hne2
    have hpc : passCount p.2.elements = p.2.elements.length := by
      unfold passCount
      rw [List.filter_eq_self.mpr]
      intro a ha
      simpa using hpass a ha
    have hq : ((p.2.elements.length : ℚ)) ≠ 0 := by exact_mod_cast hlen
    rw [stageContribution, if_pos hlen, hpc, div_self hq]
    field_simp
  have htot : calcTotal w details = calcMax w details := by
    unfold calcTotal calcMax
    congr 1
    exact List.map_congr_left hcontrib
  have hM : 0 < calcMax w details := by
    unfold calcMax
    apply List.sum_pos
    · intro x hx
      obtain ⟨p, hp, rfl⟩ := List.mem_map.mp hx
      exact hw p hp
    · simpa using hne
  rw [calculateScoreW, htot, div_self (ne_of_gt hM), one_mul]
  norm_num [jsRound]

/-- A uniform weight table for the C6 witness. -/
def allPassW : String → ℚ := fun _ => 10

/-- A one-stage all-pass run for the C6 witness. -/
def allPassDetails : List (String × StageResult) :=
  [("security", ⟨true, [⟨"Patrones de seguridad", true⟩]⟩)]

/-- Witness for C6 at a concrete all-pass run. -/
theorem all_pass_score_100_witness : calculateScoreW allPassW allPassDetails = 100 :=
  all_pass_score_100 allPassW allPassDetails (by decide) (by decide) (by decide)

theorem jsRound_mono {q1 q2 : ℚ} (h : q1 ≤ q2) : jsRound q1 ≤ jsRound q2 :=
  Int.floor_mono (by linarith)

theorem weightsMain_pos : ∀ s ∈ pipelineIds, 0 < weightsMain s := by
  intro s hs
  fin_cases hs <;> decide

/-- C10: the aggregator is monotone in outcomes: with every category of
the details mapping carrying a configured weight, flipping one check
outcome from failed to passed (everything else fixed) never decreases
`calculateScore`. -/
theorem score_monotone_in_outcomes
    (pre post : List (String × StageResult)) (c nm : String) (pf : Bool)
    (els1 els2 : List CheckElement)
    (hcats : ∀ p ∈ pre ++ ((c, ⟨pf, els1 ++ ⟨nm, false⟩ :: els2⟩) :: post), p.1 ∈ pipelineIds) :
    calculateScore (pre ++ ((c, ⟨pf, els1 ++ ⟨nm, false⟩ :: els2⟩) :: post)) ≤
    calculateScore (pre ++ ((c, ⟨pf, els1 ++ ⟨nm, true⟩ :: els2⟩) :: post)) := by
  set E1 : List CheckElement := els1 ++ ⟨nm, false⟩ :: els2 with hE1
  set E2 : List CheckElement := els1 ++ ⟨nm, true⟩ :: els2 with hE2
  have hlen : E2.length = E1.length := by simp [hE1, hE2]
  have hlz : E1.length ≠ 0 := by simp [hE1]
  have hpc : passCount E2 = passCount E1 + 1 := by
    simp [passCount, hE1, hE2, List.filter_append]
    omega
  have hwc : (0 : ℚ) ≤ weightsMain c := by
    have hm : (c, (⟨pf, E1⟩ : StageResult)).1 ∈ pipelineIds := by
      apply hcats
      simp
    exact le_of_lt (weightsMain_pos c hm)
  have hcontrib : stageContribution weightsMain (c, ⟨pf, E1⟩) ≤
      stageContribution weightsMain (c, ⟨pf, E2⟩) := by
    rw [stageContribution, stageContribution]
    rw [if_pos hlz, if_pos (by rw [hlen]; exact hlz)]
    rw [hlen, hpc]
    have hLpos : (0 : ℚ) < (E1.length : ℚ) := by
      exact_mod_cast Nat.pos_of_ne_zero hlz
    gcongr
    linarith
  have htot : calcTotal weightsMain (pre ++ ((c, ⟨pf, E1⟩) : String × StageResult) :: post) ≤
      calcTotal weightsMain (pre ++ ((c, ⟨pf, E2⟩) : String × StageResult) :: post) := by
    simp only [calcTotal, List.map_append, List.sum_append, List.map_cons, List.sum_cons]
    exact add_le_add_left (add_le_add_right hcontrib _) _
  have hmax : calcMax weightsMain (pre ++ ((c, ⟨pf, E2⟩) : String × StageResult) :: post) =
      calcMax weightsMain (pre ++ ((c, ⟨pf, E1⟩) : String × StageResult) :: post) := by
    simp [calcMax, List.map_append]
  have hM : 0 < calcMax weightsMain (pre ++ ((c, ⟨pf, E1⟩) : String × StageResult) :: post) := by
    unfold calcMax
    apply List.sum_pos
    · intro x hx
      obtain ⟨p, hp, rfl⟩ := List.mem_map.mp hx
      exact weightsMain_pos p.1 (hcats p hp)
    · simp
  rw [calculateScore, calculateScore, calculateScoreW, calculateScoreW, hmax]
  apply jsRound_mono
  apply mul_le_mul_of_nonneg_right _ (by norm_num : (0:ℚ) ≤ 100)
  exact (div_le_div_iff_of_pos_right hM).mpr htot

/-- Witness for C10: flipping the single check of a one-stage run from
failed to passed does not decrease the score. -/
theorem score_monotone_in_outcomes_witness :
    calculateScore [("format", ⟨false, [⟨"Formato de imagen", false⟩]⟩)] ≤
    calculateScore [("format", ⟨false, [⟨"Formato de imagen", true⟩]⟩)] :=
  score_monotone_in_outcomes [] [] "format" "Formato de imagen" false [] [] (by decide)

end INE
